import Mathlib

/-!
Shallow embedding of the standardisation core of `epipipeline_v2`
(`src/epipipeline/standardise/dates.py`, `src/epipipeline/standardise/gis.py`,
and `_src/epipipeline/standardise/dates.py`).

Python `datetime.datetime` values are embedded as year/month/day triples
(`PyDate`); `pd.NaT` / `pd.NA` / `None` become `Option.none`; functions that
can raise are embedded with `Except`.  External engines that the code calls
(the fuzzywuzzy scorer, the regex/title-case normaliser, the dateutil/pandas
text parsers) are taken as function parameters: every claim under study is
insensitive to their exact behaviour.
-/

/-- Python's proleptic-Gregorian leap-year test (`calendar.isleap`). -/
def isLeap (y : Nat) : Bool :=
  (y % 4 == 0 && y % 100 != 0) || y % 400 == 0

/-- Number of days in a month of the proleptic Gregorian calendar, as used by
`datetime.datetime` for validity of `day`. -/
def daysInMonth (y m : Nat) : Nat :=
  if m = 2 then (if isLeap y then 29 else 28)
  else if m = 4 ∨ m = 6 ∨ m = 9 ∨ m = 11 then 30
  else 31

/-- Embedding of a Python `datetime.datetime` (midnight; the pipeline only ever
manipulates day-resolution values). -/
structure PyDate where
  year : Nat
  month : Nat
  day : Nat
deriving DecidableEq, Repr

/-- The argument-validity condition of the `datetime.datetime` constructor:
`MINYEAR <= year <= MAXYEAR`, `1 <= month <= 12`, `1 <= day <= daysInMonth`. -/
abbrev isValidDate (d : PyDate) : Prop :=
  1 ≤ d.year ∧ d.year ≤ 9999 ∧ 1 ≤ d.month ∧ d.month ≤ 12 ∧
    1 ≤ d.day ∧ d.day ≤ daysInMonth d.year d.month

/-- Days of the calendar strictly before year `y` (Python `date.toordinal`
arithmetic: `365*(y-1) + (y-1)//4 - (y-1)//100 + (y-1)//400`). -/
def daysBeforeYear (y : Nat) : Nat :=
  365 * (y - 1) + (y - 1) / 4 - (y - 1) / 100 + (y - 1) / 400

/-- Days of year `y` strictly before month `m`. -/
def daysBeforeMonth (y m : Nat) : Nat :=
  (List.range (m - 1)).foldl (fun acc i => acc + daysInMonth y (i + 1)) 0

/-- Python `date.toordinal`: day count with `0001-01-01` mapped to `1`.
Subtraction and comparison of `datetime` values are exactly subtraction and
comparison of ordinals (all values are at midnight). -/
def toOrdinal (d : PyDate) : Nat :=
  daysBeforeYear d.year + daysBeforeMonth d.year d.month + d.day

/-- `a - b` of two `datetime` values, in whole days (`timedelta.days`). -/
def dsub (a b : PyDate) : Int :=
  (toOrdinal a : Int) - (toOrdinal b : Int)

/-- The calendar successor of a date. -/
def nextDay (d : PyDate) : PyDate :=
  if d.day < daysInMonth d.year d.month then ⟨d.year, d.month, d.day + 1⟩
  else if d.month < 12 then ⟨d.year, d.month + 1, 1⟩
  else ⟨d.year + 1, 1, 1⟩

/-- `d + n` days (`pd.to_datetime(n, unit='D', origin=d)`). -/
def addDays (d : PyDate) : Nat → PyDate
  | 0 => d
  | n + 1 => nextDay (addDays d n)

/-- `datetime.datetime(day=x.month, month=x.day, year=x.year)`: the day/month
transposition that every heuristic of `fix_two_dates` constructs. -/
def swapDayMonth (x : PyDate) : PyDate :=
  ⟨x.year, x.day, x.month⟩

/-- Heuristic 1 of `fix_two_dates` (dates.py lines 178-189): if
`lateDate.day == earlyDate.month` and that day is in month range, swap
`lateDate`'s day and month, accepting when the candidate is at most `tagDate`
and the new delta is within `[0, 60]` days.  Note that in the source the
`minDate` branch at lines 182-186 is immediately followed by the unconditional
`return` at line 187, so when the candidate is below `minDate` the
`pass  # skip to next condition` falls through to a `return` of the very same
pair: the floor never blocks acceptance.  The embedding reproduces this
control flow literally. -/
def fixH1 (e l : PyDate) (minDate : Option PyDate) (tag : PyDate) :
    Option (PyDate × PyDate) :=
  if l.day = e.month ∧ 1 ≤ l.day ∧ l.day ≤ 12 then
    if toOrdinal (swapDayMonth l) ≤ toOrdinal tag ∧
        0 ≤ dsub (swapDayMonth l) e ∧ dsub (swapDayMonth l) e ≤ 60 then
      match minDate with
      | some m =>
          if toOrdinal m ≤ toOrdinal (swapDayMonth l) then some (e, swapDayMonth l)
          else some (e, swapDayMonth l)
      | none => some (e, swapDayMonth l)
    else none
  else none

/-- Heuristic 2 (lines 192-203): if `earlyDate.day == lateDate.month` and in
month range, swap `earlyDate`'s day and month.  Same dead `minDate` branch. -/
def fixH2 (e l : PyDate) (minDate : Option PyDate) (tag : PyDate) :
    Option (PyDate × PyDate) :=
  if e.day = l.month ∧ 1 ≤ e.day ∧ e.day ≤ 12 then
    if toOrdinal (swapDayMonth e) ≤ toOrdinal tag ∧
        0 ≤ dsub l (swapDayMonth e) ∧ dsub l (swapDayMonth e) ≤ 60 then
      match minDate with
      | some m =>
          if toOrdinal m ≤ toOrdinal (swapDayMonth e) then some (swapDayMonth e, l)
          else some (swapDayMonth e, l)
      | none => some (swapDayMonth e, l)
    else none
  else none

/-- Heuristic 3 (lines 206-219): if both dates share the same in-month-range
day, swap day and month of both.  Same dead `minDate` branch. -/
def fixH3 (e l : PyDate) (minDate : Option PyDate) (tag : PyDate) :
    Option (PyDate × PyDate) :=
  if e.day = l.day ∧ 1 ≤ e.day ∧ e.day ≤ 12 then
    if toOrdinal (swapDayMonth e) ≤ toOrdinal tag ∧
        toOrdinal (swapDayMonth l) ≤ toOrdinal tag ∧
        0 ≤ dsub (swapDayMonth l) (swapDayMonth e) ∧
        dsub (swapDayMonth l) (swapDayMonth e) ≤ 60 then
      match minDate with
      | some m =>
          if toOrdinal m ≤ toOrdinal (swapDayMonth e) ∧
              toOrdinal m ≤ toOrdinal (swapDayMonth l) then
            some (swapDayMonth e, swapDayMonth l)
          else some (swapDayMonth e, swapDayMonth l)
      | none => some (swapDayMonth e, swapDayMonth l)
    else none
  else none

/-- Heuristic 4 (lines 222-233): if `lateDate.day - earlyDate.month == 1` and
`lateDate.day` is in month range, swap `lateDate`'s day and month. -/
def fixH4 (e l : PyDate) (minDate : Option PyDate) (tag : PyDate) :
    Option (PyDate × PyDate) :=
  if (l.day : Int) - (e.month : Int) = 1 ∧ 1 ≤ l.day ∧ l.day ≤ 12 then
    if toOrdinal (swapDayMonth l) ≤ toOrdinal tag ∧
        0 ≤ dsub (swapDayMonth l) e ∧ dsub (swapDayMonth l) e ≤ 60 then
      match minDate with
      | some m =>
          if toOrdinal m ≤ toOrdinal (swapDayMonth l) then some (e, swapDayMonth l)
          else some (e, swapDayMonth l)
      | none => some (e, swapDayMonth l)
    else none
  else none

/-- Heuristic 5 (lines 236-247): if `earlyDate.day - lateDate.month == -1`
(no month-range guard in the source), swap `earlyDate`'s day and month. -/
def fixH5 (e l : PyDate) (minDate : Option PyDate) (tag : PyDate) :
    Option (PyDate × PyDate) :=
  if (e.day : Int) - (l.month : Int) = -1 then
    if toOrdinal (swapDayMonth e) ≤ toOrdinal tag ∧
        0 ≤ dsub l (swapDayMonth e) ∧ dsub l (swapDayMonth e) ≤ 60 then
      match minDate with
      | some m =>
          if toOrdinal m ≤ toOrdinal (swapDayMonth e) then some (swapDayMonth e, l)
          else some (swapDayMonth e, l)
      | none => some (swapDayMonth e, l)
    else none
  else none

/-- Body of `fix_two_dates` once both dates are non-null and `tagDate` is
resolved (dates.py lines 172-253): try the five heuristics in order, falling
through on guard failure or bounds-re-check failure; if the initial delta is
already within `[0, days_diff]`, or no heuristic accepts, return the original
pair. -/
def fixTwoDatesCore (e l : PyDate) (minDate : Option PyDate) (tag : PyDate)
    (days_diff : Int) : PyDate × PyDate :=
  if days_diff < dsub l e ∨ dsub l e < 0 then
    match fixH1 e l minDate tag with
    | some p => p
    | none =>
      match fixH2 e l minDate tag with
      | some p => p
      | none =>
        match fixH3 e l minDate tag with
        | some p => p
        | none =>
          match fixH4 e l minDate tag with
          | some p => p
          | none =>
            match fixH5 e l minDate tag with
            | some p => p
            | none => (e, l)
  else (e, l)

/-- `fix_two_dates` (dates.py lines 131-253).  `today` stands for the value of
`datetime.datetime.today()` observed during the call; the source uses it as
the ceiling whenever `tagDate` is `None` (line 163).  A pair with a null
member is returned unchanged (line 145). -/
def fix_two_dates (today : PyDate) (earlyDate lateDate : Option PyDate)
    (minDate tagDate : Option PyDate) (days_diff : Int) :
    Option PyDate × Option PyDate :=
  match earlyDate, lateDate with
  | some e, some l =>
    (some (fixTwoDatesCore e l minDate (tagDate.getD today) days_diff).1,
     some (fixTwoDatesCore e l minDate (tagDate.getD today) days_diff).2)
  | _, _ => (earlyDate, lateDate)

/-- The validity, under each heuristic's guard, of every date that
`fix_two_dates` constructs with the `datetime.datetime` constructor
(the conjunction ranges over heuristics 1-5 in source order). -/
def fixTwoDatesConstructionsValid (e l : PyDate) : Prop :=
  ((l.day = e.month ∧ 1 ≤ l.day ∧ l.day ≤ 12) → isValidDate (swapDayMonth l)) ∧
  ((e.day = l.month ∧ 1 ≤ e.day ∧ e.day ≤ 12) → isValidDate (swapDayMonth e)) ∧
  ((e.day = l.day ∧ 1 ≤ e.day ∧ e.day ≤ 12) →
    isValidDate (swapDayMonth e) ∧ isValidDate (swapDayMonth l)) ∧
  (((l.day : Int) - (e.month : Int) = 1 ∧ 1 ≤ l.day ∧ l.day ≤ 12) →
    isValidDate (swapDayMonth l)) ∧
  (((e.day : Int) - (l.month : Int) = -1) → isValidDate (swapDayMonth e))

/-- Lines 113-128 of `fix_year_for_ll` with the current year resolved. -/
def fixYearCore (d : PyDate) (currentYear : Nat) (limitYear : Bool) : Option PyDate :=
  if d.year ≠ currentYear then
    if d.month ≠ 12 ∨ limitYear = true then some ⟨currentYear, d.month, d.day⟩
    else
      let yearDiff : Int := (currentYear : Int) - (d.year : Int)
      if yearDiff < 0 ∨ 1 < yearDiff then some ⟨currentYear, d.month, d.day⟩
      else some d
  else some d

/-- `fix_year_for_ll` (dates.py lines 82-128).  `Date` is the (possibly null)
input date; `Year` the optional year-of-case, already reduced to its year
number (`pd.to_datetime(str(Year)).year`, line 105); `todayYear` the value of
`datetime.datetime.today().year` during the call.  The `assert` at line 106
(a post-dated `Year` is a configuration error) is embedded as `Except.error`.
The null check at line 94 precedes everything else. -/
def fix_year_for_ll (Date : Option PyDate) (Year : Option Nat) (limitYear : Bool)
    (todayYear : Nat) : Except String (Option PyDate) :=
  match Date with
  | none => .ok none
  | some d =>
    match Year with
    | some y =>
      if y ≤ todayYear then .ok (fixYearCore d y limitYear) else .error "post-dated year"
    | none => .ok (fixYearCore d todayYear limitYear)

/-- `check_date_bounds` (dates.py lines 256-306): nullify a date below the
floor or above the ceiling; `today` is `datetime.datetime.today()`, used as
ceiling when `tagDate` is `None` (line 284). -/
def check_date_bounds (today : PyDate) (Date : Option PyDate)
    (tagDate minDate : Option PyDate) : Option PyDate :=
  match Date with
  | none => none
  | some d =>
    let tag := tagDate.getD today
    match minDate with
    | some m =>
      if toOrdinal d < toOrdinal m then none
      else if toOrdinal tag < toOrdinal d then none
      else some d
    | none =>
      if toOrdinal tag < toOrdinal d then none
      else some d

/-- Python `str()` of a nullable value: `str(pd.NaT) = "NaT"`. -/
def pyStr : Option String → String
  | none => "NaT"
  | some s => s

/-- `string_clean_dates` (dates.py lines 50-79).  `tryFormat fmt s` stands for
`pd.to_datetime(s, format=fmt)` (`none` models the caught `ValueError`),
`mixedParse` for the final `pd.to_datetime(Date, format="mixed")` fallback and
`subDoubleHyphen` for `re.sub(r"\-\-", "-", ...)`; all three are external
parsing/regex engines.  A value with no digit in its string form is nullified
before any parsing. -/
def string_clean_dates (tryFormat : String → String → Option PyDate)
    (mixedParse : String → Option PyDate) (subDoubleHyphen : String → String)
    (Date : Option String) : Option PyDate :=
  let s0 := pyStr Date
  if ¬ (s0.toList.any Char.isDigit) then none
  else
    let s := subDoubleHyphen s0
    match ["%d/%m/%y", "%m/%d/%y", "%d/%m/%Y", "%m/%d/%Y"].findSome?
        (fun fmt => tryFormat fmt s) with
    | some d => some d
    | none => mixedParse s

/-- `int(s)` of a purely numeric string, folding over its digits. -/
def pyInt (s : String) : Nat :=
  s.toList.foldl (fun n c => n * 10 + (c.toNat - 48)) 0

/-- The year-window/ceiling filter at line 30 of `parse_date_v2`
(`_src/epipipeline/standardise/dates.py`): keep a parsed date only when its
year is in `{year_of_data - 1, year_of_data, year_of_data + 1}` and it does
not exceed `datetime.now()`; a `NaT` parse stays `NaT` (its `year` is not in
the window and its comparison with `now` is `False`). -/
def pyYearFilter (year_of_data : Nat) (now : PyDate) : Option PyDate → Option PyDate
  | none => none
  | some d =>
    if (d.year = year_of_data ∨ d.year + 1 = year_of_data ∨ d.year = year_of_data + 1)
        ∧ ¬ (toOrdinal now < toOrdinal d) then some d
    else none

/-- `parse_date_v2` (`_src/epipipeline/standardise/dates.py` lines 25-32).
The guard is the regex `^\d{5}$` on `str(date)`: exactly five digits.  A match
is read as `int(date)` days from the spreadsheet epoch `1899-12-30`; any other
value goes to `pd.to_datetime(..., errors="coerce", format="mixed",
dayfirst=True)`, embedded as the parameter `mixedParse`.  `now` is
`datetime.now()` during the call. -/
def parse_date_v2 (mixedParse : String → Option PyDate) (year_of_data : Nat)
    (now : PyDate) (date : String) : Option PyDate :=
  if date.length = 5 ∧ date.toList.all Char.isDigit then
    pyYearFilter year_of_data now (some (addDays ⟨1899, 12, 30⟩ (pyInt date)))
  else
    pyYearFilter year_of_data now (mixedParse date)

/-- Modelled from the spec: the DateParser of section 4.1 as the spec words it,
"a short (4-5 digit) purely numeric pattern" is interpreted as a spreadsheet
serial with epoch 1899-12-30.  This comparator differs from `parse_date_v2`
only in the width of the numeric guard. -/
def parse_date_v2_spec (mixedParse : String → Option PyDate) (year_of_data : Nat)
    (now : PyDate) (date : String) : Option PyDate :=
  if (date.length = 4 ∨ date.length = 5) ∧ date.toList.all Char.isDigit then
    pyYearFilter year_of_data now (some (addDays ⟨1899, 12, 30⟩ (pyInt date)))
  else
    pyYearFilter year_of_data now (mixedParse date)

/-- A purely numeric string parsed by `pd.to_datetime(..., errors="coerce",
format="mixed", dayfirst=True)` is read as a year: `"1000"` gives the
year-1000 timestamp, far outside every admissible year window of
`parse_date_v2` (any parse outside the window leads to the same final
output, so the exact choice is immaterial to the theorems below). -/
def pandasMixedYear (s : String) : Option PyDate :=
  some ⟨pyInt s, 1, 1⟩

/-- A row of the `regions.csv` hierarchy table (gis.py `df`). -/
structure RegionRow where
  regionID : String
  regionName : String
  parentID : String
deriving DecidableEq, Repr

/-- `df[df["parentID"] == pid]["regionName"].to_list()`. -/
def childNames (df : List RegionRow) (pid : String) : List String :=
  (df.filter (fun r => r.parentID == pid)).map (fun r => r.regionName)

/-- `df[(df["parentID"] == pid) & (df["regionName"] == name)]["regionID"].values[0]`.
When the matched name came from `childNames df pid` a row always exists; the
source would raise `IndexError` on an empty selection, embedded by the
(unreachable) marker string. -/
def lookupRegionID (df : List RegionRow) (pid name : String) : String :=
  match df.find? (fun r => r.parentID == pid && r.regionName == name) with
  | some r => r.regionID
  | none => "IndexError"

/-- The best-scoring choice with its score, first-seen choice winning ties:
the scanning core of `fuzzywuzzy.process.extractOne`.  The similarity scorer
is a parameter (external engine). -/
def extractBest (score : String → String → Nat) (query : String)
    (choices : List String) : Option (String × Nat) :=
  choices.foldl
    (fun acc c =>
      match acc with
      | none => some (c, score query c)
      | some (b, s) => if s < score query c then some (c, score query c) else some (b, s))
    none

/-- `process.extractOne(query, choices, score_cutoff=cutoff)`, reduced to the
returned choice: `none` when `choices` is empty or the best score is below
the cutoff. -/
def extractOne (score : String → String → Nat) (query : String)
    (choices : List String) (cutoff : Nat) : Option String :=
  match extractBest score query choices with
  | some (b, s) => if cutoff ≤ s then some b else none
  | none => none

/-- `dist_mapping` (gis.py lines 22-53).  `nrm` stands for the name-cleaning
block at lines 38-44 (`str.title().strip()` plus the alias regex
substitutions), an external string/regex engine. -/
def dist_mapping (score : String → String → Nat) (nrm : String → String)
    (stateID : String) (districtName : Option String) (df : List RegionRow)
    (threshold : Nat) : Option String × String :=
  match districtName with
  | none => (none, "admin_0")
  | some raw =>
    if stateID = "admin_0" then (none, "admin_0")
    else
      let name := nrm raw
      match extractOne score name (childNames df stateID) threshold with
      | some m => (some m, lookupRegionID df stateID m)
      | none => (some name, "admin_0")

/-- The candidate subdistrict/ULB names of `subdist_ulb_mapping` (gis.py lines
82-102): without a `childType` all children of the district; with a (string)
`childType`, lower-cased and stripped, it must occur in the `geo_prefixes`
list of `settings.yaml` (else `ValueError`), and candidates are restricted to
rows whose `regionID` starts with it. -/
def subdistCandidates (df : List RegionRow) (districtID : String)
    (childType : Option String) (geoPrefixes : List String) :
    Except String (List String) :=
  match childType with
  | none => .ok (childNames df districtID)
  | some ct0 =>
    let ct := (ct0.map Char.toLower).trim
    if geoPrefixes.contains ct then
      .ok ((df.filter (fun r => r.parentID == districtID && r.regionID.startsWith ct)).map
        (fun r => r.regionName))
    else .error "ChildType does not exist in master"

/-- `subdist_ulb_mapping` (gis.py lines 56-112).  The null/unresolved
short-circuit at line 71 precedes the `childType` validation. -/
def subdist_ulb_mapping (score : String → String → Nat) (nrm : String → String)
    (districtID : String) (subdistName : Option String) (df : List RegionRow)
    (threshold : Nat) (childType : Option String) (geoPrefixes : List String) :
    Except String (Option String × String) :=
  match subdistName with
  | none => .ok (none, "admin_0")
  | some raw =>
    if districtID = "admin_0" then .ok (none, "admin_0")
    else
      let name := nrm raw
      match subdistCandidates df districtID childType geoPrefixes with
      | .error e => .error e
      | .ok subdistricts =>
        match extractOne score name subdistricts threshold with
        | some m => .ok (some m, lookupRegionID df districtID m)
        | none => .ok (some name, "admin_0")

/-- `village_ward_mapping` (gis.py lines 115-139). -/
def village_ward_mapping (score : String → String → Nat) (nrm : String → String)
    (subdistID : String) (villageName : Option String) (df : List RegionRow)
    (threshold : Nat) : Option String × String :=
  match villageName with
  | none => (none, "admin_0")
  | some raw =>
    if subdistID = "admin_0" then (none, "admin_0")
    else
      let name := nrm raw
      match extractOne score name (childNames df subdistID) threshold with
      | some m => (some m, lookupRegionID df subdistID m)
      | none => (some name, "admin_0")

/-- The MatchResult invariant of spec section 3, with its name conjunct
amended: `failed` stands for "no candidate met the level's threshold". -/
def matchInvariant (nameIn : Option String) (parentID : String) (failed : Prop)
    (R : Option String × String) : Prop :=
  (R.2 = "admin_0" ↔ (parentID = "admin_0" ∨ nameIn = none ∨ failed)) ∧
  (R.1 = none ↔ (parentID = "admin_0" ∨ nameIn = none))

theorem daysInMonth_ge_12 (y m : Nat) : 12 ≤ daysInMonth y m := by
  unfold daysInMonth
  split
  · split <;> omega
  · split <;> omega

theorem toOrdinal_epoch : toOrdinal ⟨1, 1, 1⟩ = 1 := by decide

theorem fixH1_none_of_guard (e l : PyDate) (minD : Option PyDate) (tag : PyDate)
    (h : ¬ (l.day = e.month ∧ 1 ≤ l.day ∧ l.day ≤ 12)) : fixH1 e l minD tag = none := by
  unfold fixH1
  exact if_neg h

theorem fixH2_none_of_delta (e l : PyDate) (minD : Option PyDate) (tag : PyDate)
    (h : dsub l (swapDayMonth e) < 0) : fixH2 e l minD tag = none := by
  unfold fixH2
  split
  · exact if_neg (fun hc => by omega)
  · rfl

theorem fixH3_none_of_guard (e l : PyDate) (minD : Option PyDate) (tag : PyDate)
    (h : ¬ (e.day = l.day ∧ 1 ≤ e.day ∧ e.day ≤ 12)) : fixH3 e l minD tag = none := by
  unfold fixH3
  exact if_neg h

theorem fixH4_none_of_guard (e l : PyDate) (minD : Option PyDate) (tag : PyDate)
    (h : ¬ ((l.day : Int) - (e.month : Int) = 1 ∧ 1 ≤ l.day ∧ l.day ≤ 12)) :
    fixH4 e l minD tag = none := by
  unfold fixH4
  exact if_neg h

theorem fixH5_none_of_guard (e l : PyDate) (minD : Option PyDate) (tag : PyDate)
    (h : ¬ ((e.day : Int) - (l.month : Int) = -1)) : fixH5 e l minD tag = none := by
  unfold fixH5
  exact if_neg h

/-- C4: a non-null pair already satisfying `0 ≤ lateDate − earlyDate ≤ days_diff`
is returned unchanged by `fix_two_dates`, for every floor, ceiling and clock
value; the function is the identity on already-consistent pairs. -/
theorem fix_two_dates_consistent_pair_unchanged (today : PyDate) (e l : PyDate)
    (minD tagD : Option PyDate) (dd : Int) (h0 : 0 ≤ dsub l e) (h1 : dsub l e ≤ dd) :
    fix_two_dates today (some e) (some l) minD tagD dd = (some e, some l) := by
  unfold fix_two_dates fixTwoDatesCore
  dsimp only
  rw [if_neg (by omega : ¬ (dd < dsub l e ∨ dsub l e < 0))]

theorem fix_two_dates_consistent_pair_unchanged_witness :
    0 ≤ dsub ⟨2023, 5, 10⟩ ⟨2023, 5, 1⟩ ∧ dsub ⟨2023, 5, 10⟩ ⟨2023, 5, 1⟩ ≤ 30 ∧
    fix_two_dates ⟨2024, 1, 1⟩ (some ⟨2023, 5, 1⟩) (some ⟨2023, 5, 10⟩) none none 30
      = (some ⟨2023, 5, 1⟩, some ⟨2023, 5, 10⟩) :=
  ⟨by decide, by decide,
    fix_two_dates_consistent_pair_unchanged ⟨2024, 1, 1⟩ ⟨2023, 5, 1⟩ ⟨2023, 5, 10⟩
      none none 30 (by decide) (by decide)⟩

/-- C1: at `earlyDate = 2023-06-02`, `lateDate = 2023-12-06`,
`minDate = 2023-07-01`, `tagDate = 2024-01-01`, `days_diff = 30`, the initial
delta (187 days) is out of bounds, heuristic 1 accepts the swapped late date
`2023-06-12`, and `fix_two_dates` returns it even though it lies strictly
below the supplied floor `minDate`: the floor check of the source falls
through to an unconditional `return`, so the spec's reconciliation-safety
condition is violated by the code. -/
theorem fix_two_dates_minDate_not_enforced :
    fix_two_dates ⟨2024, 1, 1⟩ (some ⟨2023, 6, 2⟩) (some ⟨2023, 12, 6⟩)
        (some ⟨2023, 7, 1⟩) (some ⟨2024, 1, 1⟩) 30
      = (some ⟨2023, 6, 2⟩, some ⟨2023, 6, 12⟩) ∧
    toOrdinal (⟨2023, 6, 12⟩ : PyDate) < toOrdinal ⟨2023, 7, 1⟩ ∧
    30 < dsub ⟨2023, 12, 6⟩ ⟨2023, 6, 2⟩ := by
  decide

/-- C6: for `earlyDate = 2023-06-02`, `lateDate = 2023-02-05` the delta is
negative, heuristic 2's guard holds (`earlyDate.day = 2 = lateDate.month`),
its candidate is the swap `2023-02-06`, the candidate fails the bounds
re-check because the resulting delta is negative, no other heuristic fires,
and the original pair is returned — for every clock, floor, ceiling and gap. -/
theorem fix_two_dates_transposition_regression :
    (∀ (today : PyDate) (minD tagD : Option PyDate) (dd : Int),
      fix_two_dates today (some ⟨2023, 6, 2⟩) (some ⟨2023, 2, 5⟩) minD tagD dd
        = (some ⟨2023, 6, 2⟩, some ⟨2023, 2, 5⟩)) ∧
    ((⟨2023, 6, 2⟩ : PyDate).day = (⟨2023, 2, 5⟩ : PyDate).month ∧
      1 ≤ (⟨2023, 6, 2⟩ : PyDate).day ∧ (⟨2023, 6, 2⟩ : PyDate).day ≤ 12) ∧
    swapDayMonth ⟨2023, 6, 2⟩ = ⟨2023, 2, 6⟩ ∧
    dsub ⟨2023, 2, 5⟩ (swapDayMonth ⟨2023, 6, 2⟩) < 0 ∧
    (∀ (minD : Option PyDate) (tag : PyDate),
      fixH2 ⟨2023, 6, 2⟩ ⟨2023, 2, 5⟩ minD tag = none ∧
      fixH1 ⟨2023, 6, 2⟩ ⟨2023, 2, 5⟩ minD tag = none ∧
      fixH3 ⟨2023, 6, 2⟩ ⟨2023, 2, 5⟩ minD tag = none ∧
      fixH4 ⟨2023, 6, 2⟩ ⟨2023, 2, 5⟩ minD tag = none ∧
      fixH5 ⟨2023, 6, 2⟩ ⟨2023, 2, 5⟩ minD tag = none) := by
  refine ⟨?_, by decide, by decide, by decide, ?_⟩
  · intro today minD tagD dd
    unfold fix_two_dates fixTwoDatesCore
    dsimp only
    rw [show dsub ⟨2023, 2, 5⟩ ⟨2023, 6, 2⟩ = -117 from by decide,
      if_pos (Or.inr (by decide : (-117 : Int) < 0)),
      fixH1_none_of_guard _ _ _ _ (by decide),
      fixH2_none_of_delta _ _ _ _ (by decide),
      fixH3_none_of_guard _ _ _ _ (by decide),
      fixH4_none_of_guard _ _ _ _ (by decide),
      fixH5_none_of_guard _ _ _ _ (by decide)]
  · intro minD tag
    exact ⟨fixH2_none_of_delta _ _ _ _ (by decide),
      fixH1_none_of_guard _ _ _ _ (by decide),
      fixH3_none_of_guard _ _ _ _ (by decide),
      fixH4_none_of_guard _ _ _ _ (by decide),
      fixH5_none_of_guard _ _ _ _ (by decide)⟩

/-- C8 counterexample: with `tagDate` omitted, `fix_two_dates` uses the live
clock (`datetime.datetime.today()`) as the ceiling, so the same input pair
gives different outputs at two different wall-clock times: on 2023-06-15 the
heuristic-1 candidate `2023-06-12` is accepted, on 2023-06-10 it exceeds the
clock-derived ceiling and the pair is returned unchanged. -/
theorem fix_two_dates_depends_on_clock_default :
    fix_two_dates ⟨2023, 6, 15⟩ (some ⟨2023, 6, 2⟩) (some ⟨2023, 12, 6⟩) none none 30
      ≠ fix_two_dates ⟨2023, 6, 10⟩ (some ⟨2023, 6, 2⟩) (some ⟨2023, 12, 6⟩) none none 30 := by
  decide

theorem swapDayMonth_valid (x : PyDate) (hx : isValidDate x)
    (h1 : 1 ≤ x.day) (h2 : x.day ≤ 12) : isValidDate (swapDayMonth x) := by
  obtain ⟨a, b, c, d, e, f⟩ := hx
  exact ⟨a, b, h1, h2, c, le_trans d (daysInMonth_ge_12 x.year x.day)⟩

/-- C10: whenever both inputs are valid dates, every date that the heuristic
chain of `fix_two_dates` constructs (under the corresponding guard) is itself
a valid `datetime` argument triple, so the chain never raises from date
construction: in heuristics 1-4 the value placed in the month field is
guarded to 1-12, in heuristic 5 it equals `lateDate.month - 1` and is hence
at most 11, and the value placed in the day field is always an original
month, at most 12, valid in every month. -/
theorem fix_two_dates_constructed_dates_valid (e l : PyDate)
    (he : isValidDate e) (hl : isValidDate l) :
    fixTwoDatesConstructionsValid e l := by
  have hem : e.month ≤ 12 := he.2.2.2.1
  have hlm : l.month ≤ 12 := hl.2.2.2.1
  have hed : 1 ≤ e.day := he.2.2.2.2.1
  refine ⟨fun h => ?_, fun h => ?_, fun h => ?_, fun h => ?_, fun h => ?_⟩
  · exact swapDayMonth_valid l hl h.2.1 h.2.2
  · exact swapDayMonth_valid e he h.2.1 h.2.2
  · obtain ⟨heq, hge, hle⟩ := h
    exact ⟨swapDayMonth_valid e he hge hle,
      swapDayMonth_valid l hl (by omega) (by omega)⟩
  · exact swapDayMonth_valid l hl h.2.1 h.2.2
  · exact swapDayMonth_valid e he hed (by omega)

theorem fix_two_dates_constructed_dates_valid_witness :
    isValidDate ⟨2023, 6, 2⟩ ∧ isValidDate ⟨2023, 2, 5⟩ ∧
    fixTwoDatesConstructionsValid ⟨2023, 6, 2⟩ ⟨2023, 2, 5⟩ :=
  ⟨by decide, by decide,
    fix_two_dates_constructed_dates_valid ⟨2023, 6, 2⟩ ⟨2023, 2, 5⟩ (by decide) (by decide)⟩

/-- C5: with the December exception enabled (`limitYear` false) and a supplied
target year 2025 that does not post-date the clock year, `fix_year_for_ll`
leaves `2024-12-20` unchanged (year difference exactly 1, December) and
forces `2022-12-20` to `2025-12-20` (year difference greater than 1),
preserving month and day. -/
theorem fix_year_for_ll_december_boundary (todayYear : Nat) (h : 2025 ≤ todayYear) :
    fix_year_for_ll (some ⟨2024, 12, 20⟩) (some 2025) false todayYear
      = .ok (some ⟨2024, 12, 20⟩) ∧
    fix_year_for_ll (some ⟨2022, 12, 20⟩) (some 2025) false todayYear
      = .ok (some ⟨2025, 12, 20⟩) := by
  constructor
  · unfold fix_year_for_ll
    dsimp only
    rw [if_pos h,
      show fixYearCore ⟨2024, 12, 20⟩ 2025 false = some ⟨2024, 12, 20⟩ from by decide]
  · unfold fix_year_for_ll
    dsimp only
    rw [if_pos h,
      show fixYearCore ⟨2022, 12, 20⟩ 2025 false = some ⟨2025, 12, 20⟩ from by decide]

theorem fix_year_for_ll_december_boundary_witness :
    2025 ≤ 2025 ∧
    (fix_year_for_ll (some ⟨2024, 12, 20⟩) (some 2025) false 2025
        = .ok (some ⟨2024, 12, 20⟩) ∧
      fix_year_for_ll (some ⟨2022, 12, 20⟩) (some 2025) false 2025
        = .ok (some ⟨2025, 12, 20⟩)) :=
  ⟨by decide, fix_year_for_ll_december_boundary 2025 (by decide)⟩

/-- C3: every component of the core maps a null input value to a null
(resp. unresolved-sentinel) output and reaches no raising branch on it: the
date parser nullifies `NaT` before any format attempt, the year corrector and
bounds validator return `NaT` before touching `Year`/`tagDate`, the pair
reconciler returns a pair with a null member unchanged, and each geo-mapping
returns `(null, "admin_0")` before any normalisation, candidate collection or
`childType` validation. -/
theorem null_propagation_all_components :
    (∀ (tryFormat : String → String → Option PyDate)
        (mixedParse : String → Option PyDate) (subDoubleHyphen : String → String),
      string_clean_dates tryFormat mixedParse subDoubleHyphen none = none) ∧
    (∀ (Year : Option Nat) (limitYear : Bool) (todayYear : Nat),
      fix_year_for_ll none Year limitYear todayYear = .ok none) ∧
    (∀ (today : PyDate) (l minD tagD : Option PyDate) (dd : Int),
      fix_two_dates today none l minD tagD dd = (none, l)) ∧
    (∀ (today : PyDate) (e minD tagD : Option PyDate) (dd : Int),
      fix_two_dates today e none minD tagD dd = (e, none)) ∧
    (∀ (today : PyDate) (tagD minD : Option PyDate),
      check_date_bounds today none tagD minD = none) ∧
    (∀ (score : String → String → Nat) (nrm : String → String) (stateID : String)
        (df : List RegionRow) (threshold : Nat),
      dist_mapping score nrm stateID none df threshold = (none, "admin_0")) ∧
    (∀ (score : String → String → Nat) (nrm : String → String) (districtID : String)
        (df : List RegionRow) (threshold : Nat) (childType : Option String)
        (geoPrefixes : List String),
      subdist_ulb_mapping score nrm districtID none df threshold childType geoPrefixes
        = .ok (none, "admin_0")) ∧
    (∀ (score : String → String → Nat) (nrm : String → String) (subdistID : String)
        (df : List RegionRow) (threshold : Nat),
      village_ward_mapping score nrm subdistID none df threshold = (none, "admin_0")) := by
  refine ⟨?_, ?_, ?_, ?_, ?_, ?_, ?_, ?_⟩
  · intro tryFormat mixedParse subDoubleHyphen
    unfold string_clean_dates pyStr
    dsimp only
    rw [if_pos (by decide)]
  · intro Year limitYear todayYear
    rfl
  · intro today l minD tagD dd
    cases l <;> rfl
  · intro today e minD tagD dd
    cases e <;> rfl
  · intro today tagD minD
    rfl
  · intro score nrm stateID df threshold
    rfl
  · intro score nrm districtID df threshold childType geoPrefixes
    rfl
  · intro score nrm subdistID df threshold
    rfl

/-- C9: resolving any subdistrict/ULB name with parent district id `admin_0`
returns `(null, "admin_0")` for every scorer, normaliser, name, hierarchy
table, threshold and child-type restriction — in particular the output does
not depend on the similarity scorer, so no string comparison against
candidate names can influence it. -/
theorem subdist_ulb_mapping_unresolved_parent_short_circuit
    (score : String → String → Nat) (nrm : String → String) (name : Option String)
    (df : List RegionRow) (threshold : Nat) (childType : Option String)
    (geoPrefixes : List String) :
    subdist_ulb_mapping score nrm "admin_0" name df threshold childType geoPrefixes
      = .ok (none, "admin_0") := by
  cases name with
  | none => rfl
  | some raw =>
    unfold subdist_ulb_mapping
    dsimp only
    rw [if_pos rfl]

/-- C2 counterexample: `dist_mapping` called with an unresolved parent
(`stateID = "admin_0"`) but a non-null district name returns a null resolved
name, so "resolvedName is null only when the input name was null" fails on
the code as stated. -/
theorem dist_mapping_shortcircuit_nullifies_name :
    (dist_mapping (fun _ _ => 100) (fun s => s) "admin_0" (some "Raichur")
        [⟨"district_546", "Raichur", "state_29"⟩] 65).1 = none ∧
    (some "Raichur" : Option String) ≠ none := by
  constructor
  · rfl
  · intro h
    exact Option.noConfusion h

set_option maxRecDepth 40000 in
/-- C7 counterexample: the four-digit numeric value `"0100"` is not routed to
the spreadsheet-serial branch of `parse_date_v2` (whose guard is the regex
matching exactly five digits): under the spec's 4-5-digit reading it would
denote `1899-12-30 + 100 days = 1900-04-09` and survive the year window for
`year_of_data = 1900`, but the code sends it to the mixed-format parser and
nullifies it. -/
theorem parse_date_v2_four_digit_not_serial :
    parse_date_v2_spec pandasMixedYear 1900 ⟨2024, 1, 1⟩ "0100" = some ⟨1900, 4, 9⟩ ∧
    parse_date_v2 pandasMixedYear 1900 ⟨2024, 1, 1⟩ "0100" = none := by
  constructor
  · decide
  · decide

/-- C7 amended: exactly the five-digit purely numeric values are interpreted
by `parse_date_v2` as spreadsheet serial day-counts with epoch `1899-12-30`
(then subjected to the year-window/ceiling filter); four-digit values go to
the mixed-format parser instead. -/
theorem parse_date_v2_five_digit_serial (mixedParse : String → Option PyDate)
    (year_of_data : Nat) (now : PyDate) (s : String)
    (h5 : s.length = 5) (hd : s.toList.all Char.isDigit = true) :
    parse_date_v2 mixedParse year_of_data now s
      = pyYearFilter year_of_data now
          (some (addDays ⟨1899, 12, 30⟩ (pyInt s))) := by
  unfold parse_date_v2
  rw [if_pos ⟨h5, hd⟩]

theorem parse_date_v2_five_digit_serial_witness :
    ("10000".length = 5 ∧ "10000".toList.all Char.isDigit = true) ∧
    parse_date_v2 (fun _ => none) 1927 ⟨2024, 1, 1⟩ "10000"
      = pyYearFilter 1927 ⟨2024, 1, 1⟩
          (some (addDays ⟨1899, 12, 30⟩ (pyInt "10000"))) :=
  ⟨⟨by decide, by decide⟩,
    parse_date_v2_five_digit_serial (fun _ => none) 1927 ⟨2024, 1, 1⟩ "10000"
      (by decide) (by decide)⟩

/-- C8 amended: the reconciler and the bounds validator are independent of the
clock whenever the caller supplies `tagDate`, and the year corrector is
independent of the clock whenever the supplied `Year` does not post-date
either invocation's clock year; only the defaults for these omitted
references read the live clock. -/
theorem clock_independence_with_supplied_refs :
    (∀ (t1 t2 : PyDate) (e l minD : Option PyDate) (tag : PyDate) (dd : Int),
      fix_two_dates t1 e l minD (some tag) dd = fix_two_dates t2 e l minD (some tag) dd) ∧
    (∀ (t1 t2 : PyDate) (d minB : Option PyDate) (tag : PyDate),
      check_date_bounds t1 d (some tag) minB = check_date_bounds t2 d (some tag) minB) ∧
    (∀ (dY : Option PyDate) (y : Nat) (lim : Bool) (ty1 ty2 : Nat),
      y ≤ ty1 → y ≤ ty2 →
      fix_year_for_ll dY (some y) lim ty1 = fix_year_for_ll dY (some y) lim ty2) := by
  refine ⟨?_, ?_, ?_⟩
  · intro t1 t2 e l minD tag dd
    cases e <;> cases l <;> rfl
  · intro t1 t2 d minB tag
    cases d <;> rfl
  · intro dY y lim ty1 ty2 h1 h2
    cases dY with
    | none => rfl
    | some d =>
      unfold fix_year_for_ll
      dsimp only
      rw [if_pos h1, if_pos h2]

theorem clock_independence_with_supplied_refs_witness :
    (fix_two_dates ⟨2024, 1, 1⟩ (some ⟨2023, 5, 1⟩) (some ⟨2023, 5, 10⟩) none
        (some ⟨2024, 1, 1⟩) 30
      = fix_two_dates ⟨2025, 1, 1⟩ (some ⟨2023, 5, 1⟩) (some ⟨2023, 5, 10⟩) none
        (some ⟨2024, 1, 1⟩) 30) ∧
    (check_date_bounds ⟨2024, 1, 1⟩ (some ⟨2023, 5, 1⟩) (some ⟨2024, 1, 1⟩) none
      = check_date_bounds ⟨2025, 1, 1⟩ (some ⟨2023, 5, 1⟩) (some ⟨2024, 1, 1⟩) none) ∧
    (2023 ≤ 2024 ∧ 2023 ≤ 2025) ∧
    fix_year_for_ll (some ⟨2023, 5, 1⟩) (some 2023) false 2024
      = fix_year_for_ll (some ⟨2023, 5, 1⟩) (some 2023) false 2025 :=
  ⟨clock_independence_with_supplied_refs.1 ⟨2024, 1, 1⟩ ⟨2025, 1, 1⟩
      (some ⟨2023, 5, 1⟩) (some ⟨2023, 5, 10⟩) none ⟨2024, 1, 1⟩ 30,
    clock_independence_with_supplied_refs.2.1 ⟨2024, 1, 1⟩ ⟨2025, 1, 1⟩
      (some ⟨2023, 5, 1⟩) none ⟨2024, 1, 1⟩,
    ⟨by decide, by decide⟩,
    clock_independence_with_supplied_refs.2.2 (some ⟨2023, 5, 1⟩) 2023 false 2024 2025
      (by decide) (by decide)⟩

theorem lookupRegionID_ne_admin0 (df : List RegionRow) (pid name : String)
    (hwf : ∀ r ∈ df, r.regionID ≠ "admin_0") :
    lookupRegionID df pid name ≠ "admin_0" := by
  unfold lookupRegionID
  split
  · rename_i r hr
    exact hwf r (List.mem_of_find?_eq_some hr)
  · decide

theorem dist_mapping_invariant_aux (score : String → String → Nat)
    (nrm : String → String) (pid : String) (nameIn : Option String)
    (df : List RegionRow) (thr : Nat) (hwf : ∀ r ∈ df, r.regionID ≠ "admin_0") :
    matchInvariant nameIn pid
      (extractOne score (nrm (nameIn.getD "")) (childNames df pid) thr = none)
      (dist_mapping score nrm pid nameIn df thr) := by
  cases nameIn with
  | none => simp [matchInvariant, dist_mapping]
  | some raw =>
    by_cases hp : pid = "admin_0"
    · subst hp
      simp [matchInvariant, dist_mapping]
    · cases hm : extractOne score (nrm raw) (childNames df pid) thr with
      | none => simp [matchInvariant, dist_mapping, hp, hm]
      | some m =>
        simp [matchInvariant, dist_mapping, hp, hm,
          lookupRegionID_ne_admin0 df pid m hwf]

theorem village_ward_mapping_invariant_aux (score : String → String → Nat)
    (nrm : String → String) (pid : String) (nameIn : Option String)
    (df : List RegionRow) (thr : Nat) (hwf : ∀ r ∈ df, r.regionID ≠ "admin_0") :
    matchInvariant nameIn pid
      (extractOne score (nrm (nameIn.getD "")) (childNames df pid) thr = none)
      (village_ward_mapping score nrm pid nameIn df thr) := by
  cases nameIn with
  | none => simp [matchInvariant, village_ward_mapping]
  | some raw =>
    by_cases hp : pid = "admin_0"
    · subst hp
      simp [matchInvariant, village_ward_mapping]
    · cases hm : extractOne score (nrm raw) (childNames df pid) thr with
      | none => simp [matchInvariant, village_ward_mapping, hp, hm]
      | some m =>
        simp [matchInvariant, village_ward_mapping, hp, hm,
          lookupRegionID_ne_admin0 df pid m hwf]

/-- C2 amended: provided the hierarchy table contains no row whose `regionID`
is the sentinel `admin_0`, every resolution level satisfies: the returned id
is `admin_0` iff the parent id passed in was `admin_0`, or the input name was
null, or no candidate met the level's threshold; and the returned name is
null iff the input name was null or the parent id was `admin_0` (the
short-circuit nullifies the name as well, which is where the original claim
fails). -/
theorem geo_mapping_invariant (score : String → String → Nat)
    (nrmD nrmS nrmV : String → String) (df : List RegionRow)
    (hwf : ∀ r ∈ df, r.regionID ≠ "admin_0")
    (stateID districtID subdistID : String) (dn sn vn : Option String)
    (t1 t2 t3 : Nat) (childType : Option String) (geoPrefixes : List String)
    (cs : List String) (p2 : Option String × String)
    (hc : subdistCandidates df districtID childType geoPrefixes = .ok cs)
    (h2 : subdist_ulb_mapping score nrmS districtID sn df t2 childType geoPrefixes
      = .ok p2) :
    matchInvariant dn stateID
      (extractOne score (nrmD (dn.getD "")) (childNames df stateID) t1 = none)
      (dist_mapping score nrmD stateID dn df t1) ∧
    matchInvariant sn districtID
      (extractOne score (nrmS (sn.getD "")) cs t2 = none) p2 ∧
    matchInvariant vn subdistID
      (extractOne score (nrmV (vn.getD "")) (childNames df subdistID) t3 = none)
      (village_ward_mapping score nrmV subdistID vn df t3) := by
  refine ⟨dist_mapping_invariant_aux score nrmD stateID dn df t1 hwf, ?_,
    village_ward_mapping_invariant_aux score nrmV subdistID vn df t3 hwf⟩
  cases sn with
  | none =>
    simp only [subdist_ulb_mapping, Except.ok.injEq] at h2
    subst h2
    simp [matchInvariant]
  | some raw =>
    by_cases hd : districtID = "admin_0"
    · subst hd
      simp only [subdist_ulb_mapping, if_pos, Except.ok.injEq] at h2
      subst h2
      simp [matchInvariant]
    · simp only [subdist_ulb_mapping] at h2
      rw [if_neg hd, hc] at h2
      dsimp only at h2
      cases hm : extractOne score (nrmS raw) cs t2 with
      | none =>
        rw [hm] at h2
        simp only [Except.ok.injEq] at h2
        subst h2
        simp [matchInvariant, hd, hm]
      | some m =>
        rw [hm] at h2
        simp only [Except.ok.injEq] at h2
        subst h2
        simp [matchInvariant, hd, hm, lookupRegionID_ne_admin0 df districtID m hwf]

theorem geo_mapping_invariant_witness :
    matchInvariant (some "Raichur") "state_29"
      (extractOne (fun a b => if a = b then 100 else 0) "Raichur"
        (childNames
          [⟨"district_546", "Raichur", "state_29"⟩,
           ⟨"subdistrict_5999", "Manvi", "district_546"⟩,
           ⟨"village_100", "Kurdi", "subdistrict_5999"⟩] "state_29") 65 = none)
      (dist_mapping (fun a b => if a = b then 100 else 0) (fun s => s) "state_29"
        (some "Raichur")
        [⟨"district_546", "Raichur", "state_29"⟩,
         ⟨"subdistrict_5999", "Manvi", "district_546"⟩,
         ⟨"village_100", "Kurdi", "subdistrict_5999"⟩] 65) ∧
    matchInvariant (some "Manvi") "district_546"
      (extractOne (fun a b => if a = b then 100 else 0) "Manvi" ["Manvi"] 65 = none)
      (some "Manvi", "subdistrict_5999") ∧
    matchInvariant (some "Kurdi") "subdistrict_5999"
      (extractOne (fun a b => if a = b then 100 else 0) "Kurdi"
        (childNames
          [⟨"district_546", "Raichur", "state_29"⟩,
           ⟨"subdistrict_5999", "Manvi", "district_546"⟩,
           ⟨"village_100", "Kurdi", "subdistrict_5999"⟩] "subdistrict_5999") 95 = none)
      (village_ward_mapping (fun a b => if a = b then 100 else 0) (fun s => s)
        "subdistrict_5999" (some "Kurdi")
        [⟨"district_546", "Raichur", "state_29"⟩,
         ⟨"subdistrict_5999", "Manvi", "district_546"⟩,
         ⟨"village_100", "Kurdi", "subdistrict_5999"⟩] 95) :=
  geo_mapping_invariant (fun a b => if a = b then 100 else 0)
    (fun s => s) (fun s => s) (fun s => s)
    [⟨"district_546", "Raichur", "state_29"⟩,
     ⟨"subdistrict_5999", "Manvi", "district_546"⟩,
     ⟨"village_100", "Kurdi", "subdistrict_5999"⟩]
    (by decide) "state_29" "district_546" "subdistrict_5999"
    (some "Raichur") (some "Manvi") (some "Kurdi") 65 65 95 none
    ["subdistrict", "ulb"] ["Manvi"] (some "Manvi", "subdistrict_5999")
    rfl rfl
